import Mathlib

/-!
Shallow embedding of the technical-indicator engine of
`TechnicalanalysisAPI/app.py` (StockSight): the five indicator calculators,
the signal classifier and the priority-vote aggregator.

Modelling conventions:
* A pandas float cell is `Val := Option ℚ`: `some q` is a finite value and
  `none` is a non-finite value (NaN or ±Infinity).  `safe_float` treats NaN
  and Infinity identically, so the two are merged into `none`.  Arithmetic
  propagates `none`; comparisons against `none` are `false`, matching IEEE
  comparisons with NaN; a division by zero yields `none`.
* Numeric literals of the source (`0.01`, `1.1`, `0.9`, `0.02`) become the
  exact rationals `1/100`, `11/10`, `9/10`, `1/50`.
* The float square root inside the rolling standard deviation is modelled by
  `Rat.sqrt`; the development relies only on `Rat.sqrt 0 = 0` and
  `0 ≤ Rat.sqrt q`, which hold for the float square root as well.
* `series.iloc[-1]` is `iloc_last`; on an empty series it yields `none`
  (in Python it raises there — every theorem that could touch that case
  assumes a nonempty series or a finite latest close).
-/

/-- A pandas float cell: `some q` is finite, `none` is NaN or ±Infinity. -/
abbrev Val := Option ℚ

def addQ : Val → Val → Val
  | some a, some b => some (a + b)
  | _, _ => none

def subQ : Val → Val → Val
  | some a, some b => some (a - b)
  | _, _ => none

def mulQ : Val → Val → Val
  | some a, some b => some (a * b)
  | _, _ => none

/-- Division; a zero divisor produces ±Infinity or NaN in floats, hence `none`. -/
def divQ : Val → Val → Val
  | some a, some b => if b = 0 then none else some (a / b)
  | _, _ => none

def absQ : Val → Val := Option.map (fun x => |x|)

/-- `x < y` on float cells; `false` when either side is non-finite (IEEE NaN). -/
def qlt : Val → Val → Bool
  | some a, some b => decide (a < b)
  | _, _ => false

def qgt (a b : Val) : Bool := qlt b a

def qle : Val → Val → Bool
  | some a, some b => decide (a ≤ b)
  | _, _ => false

/-- `safe_float(value, default)`: the value when it is finite, else the
default (which itself may be non-finite when the caller passes an expression
built from a NaN, e.g. `current_price * 1.1`). -/
def safe_float (value default : Val) : Val :=
  match value with
  | some x => some x
  | none => default

/-- One trading day.  The engine reads only `high`, `low` and `close` (the
source's `Open` column is never used).  A `none` field is a NaN cell. -/
structure Bar where
  high : Val
  low : Val
  close : Val
  deriving DecidableEq

def closes (data : List Bar) : List Val := data.map Bar.close

def highs (data : List Bar) : List Val := data.map Bar.high

def lows (data : List Bar) : List Val := data.map Bar.low

/-- `series.iloc[-1]` (see the module comment for the empty case). -/
def iloc_last (l : List Val) : Val := l.getLast?.getD none

/-- `series.diff()`: NaN first, then consecutive differences. -/
def diffQ (l : List Val) : List Val :=
  match l with
  | [] => []
  | _ :: t => none :: List.zipWith subQ t l

/-- The cell at index `i` of `series.rolling(window=w).mean()`: NaN unless
the window ending at `i` is complete and free of NaN (pandas counts non-NaN
observations against `min_periods`, which defaults to the window size). -/
def winMean (w : ℕ) (l : List Val) (i : ℕ) : Val :=
  let win := (l.drop (i + 1 - w)).take w
  if w ≤ i + 1 ∧ win.all (fun o => o.isSome) then
    some ((win.filterMap id).sum / (w : ℚ))
  else none

def rollingMean (w : ℕ) (l : List Val) : List Val :=
  (List.range l.length).map (winMean w l)

/-- The cell at index `i` of `series.rolling(window=w).std()` (sample
standard deviation, ddof = 1); same NaN policy as the rolling mean. -/
def winStd (w : ℕ) (l : List Val) (i : ℕ) : Val :=
  let win := (l.drop (i + 1 - w)).take w
  if w ≤ i + 1 ∧ win.all (fun o => o.isSome) then
    let vals := win.filterMap id
    let m := vals.sum / (w : ℚ)
    some (Rat.sqrt ((vals.map (fun x => (x - m) * (x - m))).sum / ((w : ℚ) - 1)))
  else none

def rollingStd (w : ℕ) (l : List Val) : List Val :=
  (List.range l.length).map (winStd w l)

/-- One step of pandas `ewm(span=...).mean()` with the defaults
`adjust=True`, `ignore_na=False`: the state carries the weighted numerator
and the weighted count, both decayed by `1 - a` at every bar. -/
def ewmStep (a : ℚ) (st : ℚ × ℚ) (x : Val) : ℚ × ℚ :=
  match x with
  | some v => ((1 - a) * st.1 + v, (1 - a) * st.2 + 1)
  | none => ((1 - a) * st.1, (1 - a) * st.2)

def ewmGo (a : ℚ) (st : ℚ × ℚ) : List Val → List Val
  | [] => []
  | x :: xs =>
    let st2 := ewmStep a st x
    (if st2.2 = 0 then none else some (st2.1 / st2.2)) :: ewmGo a st2 xs

/-- `series.ewm(span=span).mean()`; the smoothing factor is `2/(span+1)`. -/
def ewm_mean (span : ℚ) (l : List Val) : List Val :=
  ewmGo (2 / (span + 1)) (0, 0) l

/-- `delta.where(delta > 0, 0)` cellwise: NaN compares false, so a NaN delta
becomes 0. -/
def gainStep : Val → Val
  | some x => if 0 < x then some x else some 0
  | none => some 0

/-- `-delta.where(delta < 0, 0)` cellwise. -/
def lossStep : Val → Val
  | some x => if x < 0 then some (-x) else some 0
  | none => some 0

/-- `avg_loss.replace(0, 0.01)` cellwise (NaN cells are untouched). -/
def replace0 (o : Val) : Val :=
  if o = some 0 then some (1 / 100) else o

/-- `100 - (100 / (1 + rs))` cellwise. -/
def rsiStep (o : Val) : Val :=
  subQ (some 100) (divQ (some 100) (addQ (some 1) o))

/-- `calculate_rsi` with the default `period=14`.  For any series the
try-body is total in this model, so the handler (default 50) is dead; the
`if len(rsi) > 0 else 50` guard is the `getD (some 50)`. -/
def calculate_rsi (data : List Bar) : Val :=
  let delta := diffQ (closes data)
  let gain := delta.map gainStep
  let loss := delta.map lossStep
  let avg_gain := rollingMean 14 gain
  let avg_loss := (rollingMean 14 loss).map replace0
  let rs := List.zipWith divQ avg_gain avg_loss
  let rsi := rs.map rsiStep
  safe_float (rsi.getLast?.getD (some 50)) (some 50)

structure MACDResult where
  macd : Val
  signal : Val
  histogram : Val
  deriving DecidableEq

/-- `calculate_macd` with the defaults fast=12, slow=26, signal=9.  On the
empty series the source's `iloc[-1]` raises and the handler returns zeros;
this model agrees, since `iloc_last []` is `none` and `safe_float` then
yields 0. -/
def calculate_macd (data : List Bar) : MACDResult :=
  let exp1 := ewm_mean 12 (closes data)
  let exp2 := ewm_mean 26 (closes data)
  let macd_line := List.zipWith subQ exp1 exp2
  let signal_line := ewm_mean 9 macd_line
  let histogram := List.zipWith subQ macd_line signal_line
  { macd := safe_float (iloc_last macd_line) (some 0)
    signal := safe_float (iloc_last signal_line) (some 0)
    histogram := safe_float (iloc_last histogram) (some 0) }

structure BollingerResult where
  upper : Val
  middle : Val
  lower : Val
  current : Val
  deriving DecidableEq

/-- `calculate_bollinger_bands` with the defaults period=20, std_dev=2.
For a nonempty series the try-body is total (the only raising operation is
`iloc[-1]` on an empty frame, where the handler itself re-raises), so the
model is the try-body: per-field `safe_float` with defaults derived from the
latest close. -/
def calculate_bollinger_bands (data : List Bar) : BollingerResult :=
  let sma := rollingMean 20 (closes data)
  let std := rollingStd 20 (closes data)
  let upper_band := List.zipWith (fun m sd => addQ m (mulQ sd (some 2))) sma std
  let lower_band := List.zipWith (fun m sd => subQ m (mulQ sd (some 2))) sma std
  let current_price := iloc_last (closes data)
  { upper := safe_float (iloc_last upper_band) (mulQ current_price (some (11 / 10)))
    middle := safe_float (iloc_last sma) current_price
    lower := safe_float (iloc_last lower_band) (mulQ current_price (some (9 / 10)))
    current := safe_float current_price (some 0) }

/-- The shrunk short window `min(5, len // 2)`, used when the series has
fewer than 200 bars. -/
def shrunk_short (n : ℕ) : ℕ := min 5 (n / 2)

/-- The shrunk long window `min(10, len - 1)`. -/
def shrunk_long (n : ℕ) : ℕ := min 10 (n - 1)

structure MAResult where
  short_ma : Val
  long_ma : Val
  crossover : Bool
  deriving DecidableEq

/-- `calculate_moving_average_crossover` with the defaults short=50,
long=200.  pandas rejects `rolling(window=0)` with a `ValueError`; that
happens exactly when a window is 0 (series of at most one bar after the
shrink), and the handler then returns the latest close for both averages
with `crossover = False`. -/
def calculate_moving_average_crossover (data : List Bar) : MAResult :=
  let n := data.length
  let short := if n < 200 then shrunk_short n else 50
  let long := if n < 200 then shrunk_long n else 200
  if short = 0 ∨ long = 0 then
    let current_price := safe_float (iloc_last (closes data)) (some 100)
    { short_ma := current_price, long_ma := current_price, crossover := false }
  else
    let short_val := safe_float (iloc_last (rollingMean short (closes data))) (iloc_last (closes data))
    let long_val := safe_float (iloc_last (rollingMean long (closes data))) (iloc_last (closes data))
    { short_ma := short_val, long_ma := long_val, crossover := qgt short_val long_val }

/-- Row-wise `max` over the three true-range candidates
(`DataFrame.max(axis=1)` skips NaN; an all-NaN row gives NaN). -/
def max3Q (a b c : Val) : Val := (([a, b, c]).filterMap id).max?

def zipWith3Q (f : Val → Val → Val → Val) : List Val → List Val → List Val → List Val
  | a :: as, b :: bs, c :: cs => f a b c :: zipWith3Q f as bs cs
  | _, _, _ => []

/-- `series.shift()`: every cell moves down one position, NaN in front. -/
def shiftQ (l : List Val) : List Val :=
  match l with
  | [] => []
  | _ :: _ => none :: l.dropLast

/-- `calculate_volatility` with the default `period=14`.  The try-body is
total in this model, so the handler (default 2.0) is dead code. -/
def calculate_volatility (data : List Bar) : Val :=
  if data.length < 14 then some 2
  else
    let high_low := List.zipWith subQ (highs data) (lows data)
    let high_close := List.zipWith (fun a b => absQ (subQ a b)) (highs data) (shiftQ (closes data))
    let low_close := List.zipWith (fun a b => absQ (subQ a b)) (lows data) (shiftQ (closes data))
    let true_range := zipWith3Q max3Q high_low high_close low_close
    let atr := rollingMean 14 true_range
    let current_price := safe_float (iloc_last (closes data)) (some 100)
    let atr_val := safe_float (iloc_last atr) (mulQ current_price (some (1 / 50)))
    if qle current_price (some 0) then some 2
    else safe_float (mulQ (divQ atr_val current_price) (some 100)) (some 2)

inductive Signal where
  | Buy
  | Hold
  | Sell
  deriving DecidableEq, Fintype

inductive Verdict where
  | StrongBuy
  | StrongSell
  | Buy
  | Sell
  | Hold
  deriving DecidableEq

/-- The indicators dict assembled by the `/analyze` route, with the fields in
its insertion order. -/
structure Indicators where
  rsi : Val
  macd : MACDResult
  moving_average : MAResult
  bollinger_bands : BollingerResult
  volatility : Val
  deriving DecidableEq

/-- The signals dict, with the fields in the source's insertion order. -/
structure Signals where
  rsi : Signal
  macd : Signal
  moving_average : Signal
  bollinger_bands : Signal
  volatility : Signal
  deriving DecidableEq, Fintype

/-- `get_indicator_signals`. -/
def get_indicator_signals (indicators : Indicators) : Signals :=
  { rsi :=
      if qlt indicators.rsi (some 30) then .Buy
      else if qgt indicators.rsi (some 70) then .Sell
      else .Hold
    macd :=
      if qgt indicators.macd.macd indicators.macd.signal && qgt indicators.macd.histogram (some 0) then .Buy
      else if qlt indicators.macd.macd indicators.macd.signal && qlt indicators.macd.histogram (some 0) then .Sell
      else .Hold
    moving_average :=
      if indicators.moving_average.crossover then .Buy else .Sell
    bollinger_bands :=
      if qlt indicators.bollinger_bands.current indicators.bollinger_bands.lower then .Buy
      else if qgt indicators.bollinger_bands.current indicators.bollinger_bands.upper then .Sell
      else .Hold
    volatility :=
      if qgt indicators.volatility (some 5) then .Sell
      else if qlt indicators.volatility (some 2) then .Buy
      else .Hold }

/-- The `signals.values()` view, in the source's insertion order. -/
def signalsList (sg : Signals) : List Signal :=
  [sg.rsi, sg.macd, sg.moving_average, sg.bollinger_bands, sg.volatility]

/-- `calculate_final_suggestion` over the values of the signals dict. -/
def calculate_final_suggestion (signals : List Signal) : Verdict :=
  let buy_count := signals.count Signal.Buy
  let sell_count := signals.count Signal.Sell
  if buy_count ≥ 3 then .StrongBuy
  else if sell_count ≥ 3 then .StrongSell
  else if buy_count > sell_count then .Buy
  else if sell_count > buy_count then .Sell
  else .Hold

def analyze_indicators (data : List Bar) : Indicators :=
  { rsi := calculate_rsi data
    macd := calculate_macd data
    moving_average := calculate_moving_average_crossover data
    bollinger_bands := calculate_bollinger_bands data
    volatility := calculate_volatility data }

def analyze_signals (data : List Bar) : Signals :=
  get_indicator_signals (analyze_indicators data)

def analyze_suggestion (data : List Bar) : Verdict :=
  calculate_final_suggestion (signalsList (analyze_signals data))

/-- A flat bar at price 100. -/
def bar100 : Bar := { high := some 100, low := some 100, close := some 100 }

/-- The flat 250-bar series of the end-to-end scenario. -/
def flat250 : List Bar := List.replicate 250 bar100

/-- A single-bar series whose cells are all NaN. -/
def nanBar : Bar := { high := none, low := none, close := none }

/-- A flat bar at the (negative) price -100. -/
def barNeg : Bar := { high := some (-100), low := some (-100), close := some (-100) }

/-! ### Generic lemmas about the embedding combinators -/

lemma safe_float_isSome (v d : Val) (h : d.isSome = true) :
    (safe_float v d).isSome = true := by
  cases v with
  | none => exact h
  | some x => rfl

lemma addQ_none_right (a : Val) : addQ a none = none := by cases a <;> rfl

lemma subQ_none_right (a : Val) : subQ a none = none := by cases a <;> rfl

lemma divQ_none_right (a : Val) : divQ a none = none := by cases a <;> rfl

lemma divQ_none_left (b : Val) : divQ none b = none := by cases b <;> rfl

lemma addQ_none_left (b : Val) : addQ none b = none := by cases b <;> rfl

lemma mulQ_none_left (b : Val) : mulQ none b = none := by cases b <;> rfl

lemma zipWith_map_same {α β γ δ : Type} (f : β → γ → δ) (g : α → β) (k : α → γ) :
    ∀ l : List α, List.zipWith f (l.map g) (l.map k) = l.map (fun x => f (g x) (k x)) := by
  intro l
  induction l with
  | nil => rfl
  | cons x xs ih => simp only [List.map_cons, List.zipWith_cons_cons, ih]

lemma getLast?_map_range {α : Type} (f : ℕ → α) (n : ℕ) (h : n ≠ 0) :
    ((List.range n).map f).getLast? = some (f (n - 1)) := by
  cases n with
  | zero => cases h rfl
  | succ m =>
    rw [List.range_succ, List.map_append]
    simp [List.getLast?_concat]

lemma zipWith_replicate_same {α β γ : Type} (f : α → β → γ) (a : α) (b : β) :
    ∀ n, List.zipWith f (List.replicate n a) (List.replicate n b) =
      List.replicate n (f a b) := by
  intro n
  induction n with
  | zero => rfl
  | succ m ih => simp only [List.replicate_succ, List.zipWith_cons_cons, ih]

lemma iloc_last_replicate {x : Val} (n : ℕ) (h : n ≠ 0) :
    iloc_last (List.replicate n x) = x := by
  cases n with
  | zero => cases h rfl
  | succ m =>
    rw [iloc_last, List.replicate_succ', List.getLast?_concat]
    rfl

lemma ne_nil_of_iloc_last {l : List Val} {c : ℚ} (h : iloc_last l = some c) : l ≠ [] := by
  intro he
  subst he
  simp [iloc_last] at h

lemma iloc_last_rollingMean (w : ℕ) (l : List Val) (h : l.length ≠ 0) :
    iloc_last (rollingMean w l) = winMean w l (l.length - 1) := by
  rw [rollingMean, iloc_last, getLast?_map_range _ _ h]
  rfl

/-! ### The RSI series, cell by cell -/

/-- The cell at index `i` of the `rsi` series built by `calculate_rsi`. -/
def rsiCell (data : List Bar) (i : ℕ) : Val :=
  rsiStep (divQ (winMean 14 ((diffQ (closes data)).map gainStep) i)
    (replace0 (winMean 14 ((diffQ (closes data)).map lossStep) i)))

lemma calculate_rsi_eq (data : List Bar) :
    calculate_rsi data =
      safe_float ((((List.range (diffQ (closes data)).length).map (rsiCell data)).getLast?).getD
        (some 50)) (some 50) := by
  simp only [calculate_rsi, rollingMean, List.length_map, List.map_map, zipWith_map_same,
    rsiCell, Function.comp]
  rfl

lemma gainStep_nonneg (o : Val) : ∃ g, gainStep o = some g ∧ 0 ≤ g := by
  cases o with
  | none => exact ⟨0, rfl, le_refl 0⟩
  | some x =>
    by_cases hx : 0 < x
    · exact ⟨x, by simp [gainStep, hx], le_of_lt hx⟩
    · exact ⟨0, by simp [gainStep, hx], le_refl 0⟩

lemma lossStep_nonneg (o : Val) : ∃ g, lossStep o = some g ∧ 0 ≤ g := by
  cases o with
  | none => exact ⟨0, rfl, le_refl 0⟩
  | some x =>
    by_cases hx : x < 0
    · exact ⟨-x, by simp [lossStep, hx], by linarith⟩
    · exact ⟨0, by simp [lossStep, hx], le_refl 0⟩

lemma winMean_nonneg (w : ℕ) (l : List Val) (i : ℕ)
    (hl : ∀ x ∈ l, ∃ g, x = some g ∧ 0 ≤ g) :
    winMean w l i = none ∨ ∃ m, winMean w l i = some m ∧ 0 ≤ m := by
  rw [winMean]
  split
  · right
    refine ⟨_, rfl, div_nonneg ?_ (Nat.cast_nonneg w)⟩
    apply List.sum_nonneg
    intro x hx
    rcases List.mem_filterMap.mp hx with ⟨a, ha, hax⟩
    have hal : a ∈ l := List.drop_subset _ _ (List.take_subset _ _ ha)
    rcases hl a hal with ⟨g, hg, hg0⟩
    rw [hg] at hax
    cases hax
    exact hg0
  · exact Or.inl rfl

lemma replace0_pos (o : Val) (h : o = none ∨ ∃ m, o = some m ∧ 0 ≤ m) :
    replace0 o = none ∨ ∃ m, replace0 o = some m ∧ 0 < m := by
  rcases h with rfl | ⟨m, rfl, hm⟩
  · left; rfl
  · by_cases h0 : m = 0
    · subst h0
      right
      exact ⟨1 / 100, by simp [replace0], by norm_num⟩
    · right
      refine ⟨m, ?_, lt_of_le_of_ne hm (Ne.symm h0)⟩
      simp [replace0, h0]

lemma divQ_nonneg_cases (a b : Val)
    (ha : a = none ∨ ∃ m, a = some m ∧ 0 ≤ m)
    (hb : b = none ∨ ∃ m, b = some m ∧ 0 < m) :
    divQ a b = none ∨ ∃ r, divQ a b = some r ∧ 0 ≤ r := by
  rcases ha with rfl | ⟨x, rfl, hx⟩
  · exact Or.inl (divQ_none_left b)
  rcases hb with rfl | ⟨y, rfl, hy⟩
  · exact Or.inl (divQ_none_right _)
  right
  refine ⟨x / y, ?_, div_nonneg hx (le_of_lt hy)⟩
  simp [divQ, ne_of_gt hy]

lemma rsiStep_none : rsiStep none = none := by
  rw [rsiStep, addQ_none_right, divQ_none_right, subQ_none_right]

lemma rsiStep_bounds (o : Val) (h : o = none ∨ ∃ r, o = some r ∧ 0 ≤ r) :
    rsiStep o = none ∨ ∃ v, rsiStep o = some v ∧ 0 ≤ v ∧ v ≤ 100 := by
  rcases h with rfl | ⟨r, rfl, hr⟩
  · exact Or.inl rsiStep_none
  · right
    have h1 : (0 : ℚ) < 1 + r := by linarith
    have h2 : 100 / (1 + r) ≤ 100 := by
      rw [div_le_iff h1]
      nlinarith
    have h3 : (0 : ℚ) < 100 / (1 + r) := by positivity
    refine ⟨100 - 100 / (1 + r), ?_, by linarith, by linarith⟩
    simp [rsiStep, addQ, divQ, subQ, ne_of_gt h1]

lemma rsiCell_bounds (data : List Bar) (i : ℕ) :
    rsiCell data i = none ∨ ∃ v, rsiCell data i = some v ∧ 0 ≤ v ∧ v ≤ 100 := by
  apply rsiStep_bounds
  apply divQ_nonneg_cases
  · apply winMean_nonneg
    intro x hx
    rcases List.mem_map.mp hx with ⟨o, _, rfl⟩
    exact gainStep_nonneg o
  · apply replace0_pos
    apply winMean_nonneg
    intro x hx
    rcases List.mem_map.mp hx with ⟨o, _, rfl⟩
    exact lossStep_nonneg o

lemma rsiCell_short (data : List Bar) (i : ℕ) (h : i + 1 < 14) : rsiCell data i = none := by
  have hm : winMean 14 ((diffQ (closes data)).map gainStep) i = none := by
    rw [winMean]
    rw [if_neg]
    intro hc
    omega
  rw [rsiCell, hm, divQ_none_left, rsiStep_none]

lemma diffQ_length (l : List Val) : (diffQ l).length = l.length := by
  cases l with
  | nil => rfl
  | cons x t => simp [diffQ, List.length_zipWith]

/-- C3: for every PriceSeries the RSI value is finite and lies in [0, 100];
series shorter than the 14-bar period get the neutral default 50 (the same
value the caught-exception path would produce). -/
theorem rsi_bounded :
    (∀ data : List Bar, ∃ r : ℚ, calculate_rsi data = some r ∧ 0 ≤ r ∧ r ≤ 100) ∧
    (∀ data : List Bar, data.length < 14 → calculate_rsi data = some 50) := by
  constructor
  · intro data
    rw [calculate_rsi_eq]
    by_cases hn : (diffQ (closes data)).length = 0
    · rw [hn]
      exact ⟨50, rfl, by norm_num, by norm_num⟩
    · rw [getLast?_map_range _ _ hn]
      rcases rsiCell_bounds data ((diffQ (closes data)).length - 1) with hc | ⟨v, hc, h0, h1⟩
      · rw [hc]
        exact ⟨50, rfl, by norm_num, by norm_num⟩
      · rw [hc]
        exact ⟨v, rfl, h0, h1⟩
  · intro data h
    rw [calculate_rsi_eq]
    by_cases hn : (diffQ (closes data)).length = 0
    · rw [hn]
      rfl
    · rw [getLast?_map_range _ _ hn]
      have hlen : (diffQ (closes data)).length = data.length := by
        rw [diffQ_length]
        exact List.length_map data Bar.close
      have hi : ((diffQ (closes data)).length - 1) + 1 < 14 := by omega
      rw [rsiCell_short data _ hi]
      rfl

/-- Witness for `rsi_bounded` at the empty series. -/
theorem rsi_bounded_witness :
    ([] : List Bar).length < 14 ∧ calculate_rsi [] = some 50 :=
  ⟨by decide, rsi_bounded.2 [] (by decide)⟩

/-! ### Structure of the Bollinger computation -/

lemma winStd_none_iff (w : ℕ) (l : List Val) (i : ℕ) :
    winStd w l i = none ↔ winMean w l i = none := by
  simp only [winMean, winStd]
  by_cases h : w ≤ i + 1 ∧ (((l.drop (i + 1 - w)).take w).all fun o => o.isSome) = true
  · simp [h]
  · simp [h]

lemma winStd_cases (w : ℕ) (l : List Val) (i : ℕ) :
    winStd w l i = none ∨ ∃ sd, winStd w l i = some sd ∧ 0 ≤ sd := by
  simp only [winStd]
  split
  · right
    exact ⟨_, rfl, Rat.sqrt_nonneg _⟩
  · left
    rfl

/-- Last-cell analysis of `calculate_bollinger_bands` for a series with a
finite latest close: either the 20-bar rolling window is unavailable and all
three bands fall back to multiples of the latest close as a unit, or all
three bands come from the rolling mean and standard deviation. -/
lemma bollinger_struct (data : List Bar) (c : ℚ) (h : iloc_last (closes data) = some c) :
    (iloc_last (rollingMean 20 (closes data)) = none ∧
      calculate_bollinger_bands data =
        { upper := some (c * (11 / 10)), middle := some c,
          lower := some (c * (9 / 10)), current := some c }) ∨
    (∃ m sd, 0 ≤ sd ∧ iloc_last (rollingMean 20 (closes data)) = some m ∧
      calculate_bollinger_bands data =
        { upper := some (m + sd * 2), middle := some m,
          lower := some (m - sd * 2), current := some c }) := by
  have hne : closes data ≠ [] := ne_nil_of_iloc_last h
  have hn0 : (closes data).length ≠ 0 := fun he => hne (List.length_eq_zero.mp he)
  have hsma := iloc_last_rollingMean 20 (closes data) hn0
  have hub : iloc_last (List.zipWith (fun m sd => addQ m (mulQ sd (some 2)))
      (rollingMean 20 (closes data)) (rollingStd 20 (closes data))) =
      addQ (winMean 20 (closes data) ((closes data).length - 1))
        (mulQ (winStd 20 (closes data) ((closes data).length - 1)) (some 2)) := by
    rw [rollingMean, rollingStd, zipWith_map_same, iloc_last, getLast?_map_range _ _ hn0]
    rfl
  have hlb : iloc_last (List.zipWith (fun m sd => subQ m (mulQ sd (some 2)))
      (rollingMean 20 (closes data)) (rollingStd 20 (closes data))) =
      subQ (winMean 20 (closes data) ((closes data).length - 1))
        (mulQ (winStd 20 (closes data) ((closes data).length - 1)) (some 2)) := by
    rw [rollingMean, rollingStd, zipWith_map_same, iloc_last, getLast?_map_range _ _ hn0]
    rfl
  cases hw : winMean 20 (closes data) ((closes data).length - 1) with
  | none =>
    left
    have hstd : winStd 20 (closes data) ((closes data).length - 1) = none :=
      (winStd_none_iff _ _ _).mpr hw
    refine ⟨by rw [hsma, hw], ?_⟩
    simp only [calculate_bollinger_bands]
    rw [hub, hlb, hsma, hw, hstd, h]
    simp [safe_float, addQ, subQ, mulQ]
  | some m =>
    right
    rcases winStd_cases 20 (closes data) ((closes data).length - 1) with hstd | ⟨sd, hstd, hsd⟩
    · have hcontra := (winStd_none_iff _ _ _).mp hstd
      rw [hw] at hcontra
      simp at hcontra
    · refine ⟨m, sd, hsd, by rw [hsma, hw], ?_⟩
      simp only [calculate_bollinger_bands]
      rw [hub, hlb, hsma, hw, hstd, h]
      simp [safe_float, addQ, subQ, mulQ]

/-! ### EWMA on a constant series -/

lemma ewmGo_const (a c : ℚ) (ha : 0 < 1 - a) :
    ∀ (n : ℕ) (st : ℚ × ℚ), st.1 = c * st.2 → 0 ≤ st.2 →
      ewmGo a st (List.replicate n (some c)) = List.replicate n (some c) := by
  intro n
  induction n with
  | zero => intro st h1 h2; rfl
  | succ k ih =>
    intro st h1 h2
    have hd : (0 : ℚ) < (1 - a) * st.2 + 1 := by nlinarith
    show (let st2 := ewmStep a st (some c);
      (if st2.2 = 0 then none else some (st2.1 / st2.2)) ::
        ewmGo a st2 (List.replicate k (some c))) = some c :: List.replicate k (some c)
    simp only [ewmStep]
    rw [if_neg (ne_of_gt hd)]
    congr 1
    · rw [h1]
      have hnum : (1 - a) * (c * st.2) + c = c * ((1 - a) * st.2 + 1) := by ring
      rw [hnum, mul_div_assoc, div_self (ne_of_gt hd), mul_one]
    · apply ih
      · rw [h1]; ring
      · exact le_of_lt hd

lemma ewm_mean_replicate (span c : ℚ) (h : 0 < 1 - 2 / (span + 1)) (n : ℕ) :
    ewm_mean span (List.replicate n (some c)) = List.replicate n (some c) := by
  rw [ewm_mean]
  exact ewmGo_const _ c h n (0, 0) (by norm_num) (le_refl 0)

/-! ### The flat 250-bar scenario -/

lemma closes_flat250 : closes flat250 = List.replicate 250 (some 100) := by
  rw [flat250, closes, List.map_replicate]
  rfl

lemma macd_flat : calculate_macd flat250 =
    { macd := some 0, signal := some 0, histogram := some 0 } := by
  have e1 : ewm_mean 12 (closes flat250) = List.replicate 250 (some 100) := by
    rw [closes_flat250]
    exact ewm_mean_replicate 12 100 (by norm_num) 250
  have e2 : ewm_mean 26 (closes flat250) = List.replicate 250 (some 100) := by
    rw [closes_flat250]
    exact ewm_mean_replicate 26 100 (by norm_num) 250
  have hs : subQ (some 100) (some 100) = some 0 := by norm_num [subQ]
  have hml : List.zipWith subQ (ewm_mean 12 (closes flat250)) (ewm_mean 26 (closes flat250)) =
      List.replicate 250 (some 0) := by
    rw [e1, e2, zipWith_replicate_same, hs]
  have hsl : ewm_mean 9 (List.replicate 250 (some (0 : ℚ))) = List.replicate 250 (some 0) :=
    ewm_mean_replicate 9 0 (by norm_num) 250
  have hz : subQ (some 0) (some 0) = some 0 := by norm_num [subQ]
  simp only [calculate_macd]
  rw [hml, hsl, zipWith_replicate_same, hz, iloc_last_replicate 250 (by norm_num)]
  rfl

set_option maxRecDepth 20000 in
lemma rsi_flat : calculate_rsi flat250 = some 0 := by with_unfolding_all decide

set_option maxRecDepth 20000 in
lemma bollinger_flat : calculate_bollinger_bands flat250 =
    { upper := some 100, middle := some 100, lower := some 100, current := some 100 } := by
  with_unfolding_all decide

set_option maxRecDepth 20000 in
lemma ma_flat : calculate_moving_average_crossover flat250 =
    { short_ma := some 100, long_ma := some 100, crossover := false } := by
  with_unfolding_all decide

set_option maxRecDepth 20000 in
lemma volatility_flat : calculate_volatility flat250 = some 0 := by with_unfolding_all decide

lemma indicators_flat : analyze_indicators flat250 =
    { rsi := some 0
      macd := { macd := some 0, signal := some 0, histogram := some 0 }
      moving_average := { short_ma := some 100, long_ma := some 100, crossover := false }
      bollinger_bands := { upper := some 100, middle := some 100, lower := some 100, current := some 100 }
      volatility := some 0 } := by
  simp only [analyze_indicators]
  rw [rsi_flat, macd_flat, ma_flat, bollinger_flat, volatility_flat]

lemma signals_flat : analyze_signals flat250 =
    { rsi := Signal.Buy, macd := Signal.Hold, moving_average := Signal.Sell,
      bollinger_bands := Signal.Hold, volatility := Signal.Buy } := by
  rw [analyze_signals, indicators_flat]
  with_unfolding_all decide

lemma suggestion_flat : analyze_suggestion flat250 = Verdict.Buy := by
  rw [analyze_suggestion, signals_flat]
  with_unfolding_all decide

/-! ### Sample signal assignments used by witnesses -/

def sgBuy3 : Signals :=
  { rsi := Signal.Buy, macd := Signal.Buy, moving_average := Signal.Buy,
    bollinger_bands := Signal.Sell, volatility := Signal.Sell }

def sgA : Signals :=
  { rsi := Signal.Buy, macd := Signal.Sell, moving_average := Signal.Hold,
    bollinger_bands := Signal.Hold, volatility := Signal.Hold }

def sgB : Signals :=
  { rsi := Signal.Hold, macd := Signal.Hold, moving_average := Signal.Sell,
    bollinger_bands := Signal.Buy, volatility := Signal.Hold }

/-! ### The claims -/

/-- C1 (amended): when the latest close of the series is finite, every
numeric field returned by the five calculators is finite; for RSI, MACD and
volatility the hypothesis is not even needed.  (As stated over all series
the claim fails: with a NaN latest close the Bollinger defaults
`current_price * 1.1` etc. are themselves NaN — see the counterexample.) -/
theorem calculators_finite : ∀ (data : List Bar) (c : ℚ),
    iloc_last (closes data) = some c →
    (calculate_rsi data).isSome = true ∧
    ((calculate_macd data).macd.isSome = true ∧
      (calculate_macd data).signal.isSome = true ∧
      (calculate_macd data).histogram.isSome = true) ∧
    ((calculate_bollinger_bands data).upper.isSome = true ∧
      (calculate_bollinger_bands data).middle.isSome = true ∧
      (calculate_bollinger_bands data).lower.isSome = true ∧
      (calculate_bollinger_bands data).current.isSome = true) ∧
    ((calculate_moving_average_crossover data).short_ma.isSome = true ∧
      (calculate_moving_average_crossover data).long_ma.isSome = true) ∧
    (calculate_volatility data).isSome = true := by
  intro data c h
  have hbb := bollinger_struct data c h
  refine ⟨?_, ⟨?_, ?_, ?_⟩, ?_, ⟨?_, ?_⟩, ?_⟩
  · apply safe_float_isSome
    rfl
  · apply safe_float_isSome
    rfl
  · apply safe_float_isSome
    rfl
  · apply safe_float_isSome
    rfl
  · rcases hbb with ⟨_, heq⟩ | ⟨m, sd, _, _, heq⟩ <;> rw [heq] <;> exact ⟨rfl, rfl, rfl, rfl⟩
  · simp only [calculate_moving_average_crossover]
    split <;> split <;>
      first
      | (apply safe_float_isSome; rfl)
      | (rw [h]; apply safe_float_isSome; rfl)
  · simp only [calculate_moving_average_crossover]
    split <;> split <;>
      first
      | (apply safe_float_isSome; rfl)
      | (rw [h]; apply safe_float_isSome; rfl)
  · simp only [calculate_volatility]
    split
    · rfl
    · split
      · rfl
      · apply safe_float_isSome
        rfl

/-- Witness for `calculators_finite` at a one-bar series. -/
theorem calculators_finite_witness :
    iloc_last (closes [bar100]) = some 100 ∧
    (calculate_bollinger_bands [bar100]).upper.isSome = true :=
  ⟨rfl, (calculators_finite [bar100] 100 rfl).2.2.1.1⟩

/-- C1 counterexample: a one-bar series whose close is NaN makes the three
Bollinger bands NaN (the guard's fallback default is itself NaN), so a
non-finite value does escape to the caller. -/
theorem calculators_finite_cex :
    (calculate_bollinger_bands [nanBar]).upper = none ∧
    (calculate_bollinger_bands [nanBar]).middle = none ∧
    (calculate_bollinger_bands [nanBar]).lower = none := by
  with_unfolding_all decide

/-- C2 (amended): on the flat 250-bar series at close 100 the RSI is 0, not
50 (the zero average gain is divided by the replaced average loss 0.01), so
the RSI signal is Buy; the MACD histogram is 0 (Hold), the Bollinger bands
collapse to 100 (Hold), the crossover is false (Sell) and the volatility is
0 (Buy).  The tally is buyCount = 2, sellCount = 1 and the verdict is Buy,
not Hold. -/
theorem flat_series_end_to_end :
    calculate_rsi flat250 = some 0 ∧
    calculate_macd flat250 = { macd := some 0, signal := some 0, histogram := some 0 } ∧
    calculate_bollinger_bands flat250 =
      { upper := some 100, middle := some 100, lower := some 100, current := some 100 } ∧
    calculate_moving_average_crossover flat250 =
      { short_ma := some 100, long_ma := some 100, crossover := false } ∧
    calculate_volatility flat250 = some 0 ∧
    analyze_signals flat250 =
      { rsi := Signal.Buy, macd := Signal.Hold, moving_average := Signal.Sell,
        bollinger_bands := Signal.Hold, volatility := Signal.Buy } ∧
    (signalsList (analyze_signals flat250)).count Signal.Buy = 2 ∧
    (signalsList (analyze_signals flat250)).count Signal.Sell = 1 ∧
    analyze_suggestion flat250 = Verdict.Buy := by
  refine ⟨rsi_flat, macd_flat, bollinger_flat, ma_flat, volatility_flat, signals_flat, ?_, ?_,
    suggestion_flat⟩
  · rw [signals_flat]
    decide
  · rw [signals_flat]
    decide

/-- C2 counterexample: on the flat 250-bar series the RSI is not the neutral
50 the claim predicts, and the final verdict is not Hold. -/
theorem flat_series_end_to_end_cex :
    calculate_rsi flat250 ≠ some 50 ∧ analyze_suggestion flat250 ≠ Verdict.Hold := by
  constructor
  · rw [rsi_flat]
    with_unfolding_all decide
  · rw [suggestion_flat]
    decide

/-- C4 (amended): when the latest close is finite and nonnegative,
`lower ≤ middle ≤ upper` holds on the rolling path (the standard deviation
is nonnegative) and on the per-field fallback path (`0.9·c ≤ c ≤ 1.1·c` for
`0 ≤ c`).  As stated over all series the claim fails for a negative latest
close — see the counterexample. -/
theorem bollinger_ordered : ∀ (data : List Bar) (c : ℚ),
    iloc_last (closes data) = some c → 0 ≤ c →
    ∃ lo mi up, (calculate_bollinger_bands data).lower = some lo ∧
      (calculate_bollinger_bands data).middle = some mi ∧
      (calculate_bollinger_bands data).upper = some up ∧ lo ≤ mi ∧ mi ≤ up := by
  intro data c h hc
  rcases bollinger_struct data c h with ⟨_, heq⟩ | ⟨m, sd, hsd, _, heq⟩
  · rw [heq]
    exact ⟨c * (9 / 10), c, c * (11 / 10), rfl, rfl, rfl, by linarith, by linarith⟩
  · rw [heq]
    exact ⟨m - sd * 2, m, m + sd * 2, rfl, rfl, rfl, by linarith, by linarith⟩

/-- Witness for `bollinger_ordered` at a one-bar series. -/
theorem bollinger_ordered_witness :
    iloc_last (closes [bar100]) = some 100 ∧ (0 : ℚ) ≤ 100 ∧
    ∃ lo mi up, (calculate_bollinger_bands [bar100]).lower = some lo ∧
      (calculate_bollinger_bands [bar100]).middle = some mi ∧
      (calculate_bollinger_bands [bar100]).upper = some up ∧ lo ≤ mi ∧ mi ≤ up :=
  ⟨rfl, by norm_num, bollinger_ordered [bar100] 100 rfl (by norm_num)⟩

/-- C4 counterexample: for a one-bar series at close −100 the fallback gives
`lower = -90 > middle = -100`, so the ordering fails. -/
theorem bollinger_ordered_cex :
    (calculate_bollinger_bands [barNeg]).lower = some (-90) ∧
    (calculate_bollinger_bands [barNeg]).middle = some (-100) ∧
    ¬ ((-90 : ℚ) ≤ -100) := by
  with_unfolding_all decide

/-- C6 (amended): for a finite latest close `c` the fallback activates as a
unit — if the last rolling-mean cell is NaN the result is exactly
`(1.1·c, c, 0.9·c, c)` — and no mixing is possible: if the last rolling-mean
cell is finite, all three bands come from the rolling computation.  The
claim's "100 as a last-resort price" lives only in the exception branch,
which is unreachable for a nonempty series; with a NaN latest close the
fallback instead produces NaN fields — see the counterexample. -/
theorem bollinger_fallback_unit : ∀ (data : List Bar) (c : ℚ),
    iloc_last (closes data) = some c →
    (iloc_last (rollingMean 20 (closes data)) = none →
      calculate_bollinger_bands data =
        { upper := some (c * (11 / 10)), middle := some c,
          lower := some (c * (9 / 10)), current := some c }) ∧
    (∀ m, iloc_last (rollingMean 20 (closes data)) = some m →
      ∃ sd, 0 ≤ sd ∧ calculate_bollinger_bands data =
        { upper := some (m + sd * 2), middle := some m,
          lower := some (m - sd * 2), current := some c }) := by
  intro data c h
  rcases bollinger_struct data c h with ⟨hnone, heq⟩ | ⟨m, sd, hsd, hsome, heq⟩
  · refine ⟨fun _ => heq, fun m hm => ?_⟩
    rw [hnone] at hm
    simp at hm
  · constructor
    · intro hn
      rw [hsome] at hn
      simp at hn
    · intro m2 hm
      rw [hsome] at hm
      injection hm with hmm
      subst hmm
      exact ⟨sd, hsd, heq⟩

/-- Witness for `bollinger_fallback_unit` at a one-bar series. -/
theorem bollinger_fallback_unit_witness :
    iloc_last (closes [bar100]) = some 100 ∧
    iloc_last (rollingMean 20 (closes [bar100])) = none ∧
    calculate_bollinger_bands [bar100] =
      { upper := some (100 * (11 / 10)), middle := some 100,
        lower := some (100 * (9 / 10)), current := some 100 } :=
  ⟨rfl, rfl, (bollinger_fallback_unit [bar100] 100 rfl).1 rfl⟩

/-- C6 counterexample: with a NaN latest close the fallback is taken but the
result is not derived from the 100 last-resort price: the bands are NaN and
`current` is 0. -/
theorem bollinger_fallback_unit_cex :
    iloc_last (rollingMean 20 (closes [nanBar])) = none ∧
    (calculate_bollinger_bands [nanBar]).upper = none ∧
    (calculate_bollinger_bands [nanBar]).current = some 0 ∧
    calculate_bollinger_bands [nanBar] ≠
      { upper := some 110, middle := some 100, lower := some 90, current := some 100 } := by
  with_unfolding_all decide

set_option maxRecDepth 10000 in
/-- C5: the aggregator is a strict priority ladder — the strong thresholds
are checked before plain majority, in the fixed order StrongBuy, StrongSell,
Buy, Sell, Hold; in particular 3 Buy + 2 Sell yields StrongBuy (not Buy) and
2 Buy + 2 Sell yields Hold. -/
theorem suggestion_priority_ladder :
    (∀ sg : Signals,
      (3 ≤ (signalsList sg).count Signal.Buy →
        calculate_final_suggestion (signalsList sg) = Verdict.StrongBuy) ∧
      ((signalsList sg).count Signal.Buy < 3 → 3 ≤ (signalsList sg).count Signal.Sell →
        calculate_final_suggestion (signalsList sg) = Verdict.StrongSell) ∧
      ((signalsList sg).count Signal.Buy < 3 → (signalsList sg).count Signal.Sell < 3 →
        (signalsList sg).count Signal.Sell < (signalsList sg).count Signal.Buy →
        calculate_final_suggestion (signalsList sg) = Verdict.Buy) ∧
      ((signalsList sg).count Signal.Buy < 3 → (signalsList sg).count Signal.Sell < 3 →
        (signalsList sg).count Signal.Buy < (signalsList sg).count Signal.Sell →
        calculate_final_suggestion (signalsList sg) = Verdict.Sell) ∧
      ((signalsList sg).count Signal.Buy < 3 → (signalsList sg).count Signal.Sell < 3 →
        (signalsList sg).count Signal.Buy = (signalsList sg).count Signal.Sell →
        calculate_final_suggestion (signalsList sg) = Verdict.Hold)) ∧
    calculate_final_suggestion
      [Signal.Buy, Signal.Buy, Signal.Buy, Signal.Sell, Signal.Sell] = Verdict.StrongBuy ∧
    calculate_final_suggestion
      [Signal.Buy, Signal.Buy, Signal.Sell, Signal.Sell, Signal.Hold] = Verdict.Hold := by
  refine ⟨?_, by decide, by decide⟩
  decide

/-- Witness for `suggestion_priority_ladder` at 3 Buy + 2 Sell signals. -/
theorem suggestion_priority_ladder_witness :
    3 ≤ (signalsList sgBuy3).count Signal.Buy ∧
    calculate_final_suggestion (signalsList sgBuy3) = Verdict.StrongBuy :=
  ⟨by decide, (suggestion_priority_ladder.1 sgBuy3).1 (by decide)⟩

/-- C7: a series shorter than 14 bars yields volatility exactly 2.0, which
the classifier maps to Hold (2 is neither below 2 nor above 5). -/
theorem volatility_short_series : ∀ data : List Bar, data.length < 14 →
    calculate_volatility data = some 2 ∧ (analyze_signals data).volatility = Signal.Hold := by
  intro data h
  have hv : calculate_volatility data = some 2 := by
    simp only [calculate_volatility]
    rw [if_pos h]
  refine ⟨hv, ?_⟩
  have hsig : (analyze_signals data).volatility =
      (if qgt (calculate_volatility data) (some 5) then Signal.Sell
       else if qlt (calculate_volatility data) (some 2) then Signal.Buy
       else Signal.Hold) := rfl
  rw [hsig, hv]
  with_unfolding_all decide

/-- Witness for `volatility_short_series` at the empty series. -/
theorem volatility_short_series_witness :
    ([] : List Bar).length < 14 ∧ calculate_volatility [] = some 2 :=
  ⟨by decide, (volatility_short_series [] (by decide)).1⟩

set_option maxRecDepth 10000 in
/-- C8: the classifier's Moving-Average-Crossover branch returns Buy when
the crossover flag is true and Sell when it is false — never Hold — while
each of the other four indicators has a reachable Hold output (a one-bar
series at close 100 produces RSI 50, MACD 0/0/0, a band around 100 and the
volatility fallback 2, all classified Hold). -/
theorem ma_signal_never_hold :
    (∀ ind : Indicators,
      (get_indicator_signals ind).moving_average =
        (if ind.moving_average.crossover then Signal.Buy else Signal.Sell) ∧
      (get_indicator_signals ind).moving_average ≠ Signal.Hold) ∧
    ((analyze_signals [bar100]).rsi = Signal.Hold ∧
      (analyze_signals [bar100]).macd = Signal.Hold ∧
      (analyze_signals [bar100]).bollinger_bands = Signal.Hold ∧
      (analyze_signals [bar100]).volatility = Signal.Hold) := by
  constructor
  · intro ind
    refine ⟨rfl, ?_⟩
    have hma : (get_indicator_signals ind).moving_average =
        (if ind.moving_average.crossover then Signal.Buy else Signal.Sell) := rfl
    rw [hma]
    cases ind.moving_average.crossover <;> decide
  · with_unfolding_all decide

set_option maxRecDepth 10000 in
/-- C9 (amended): the shrunk windows satisfy short < long for every series
length from 3 up to 199; at lengths 1 and 2 the formula degenerates to
short = long (0 = 0 and 1 = 1 respectively) — see the counterexample. -/
theorem shrunk_short_lt_long : ∀ n : ℕ, n < 200 → 3 ≤ n →
    shrunk_short n < shrunk_long n := by decide

/-- Witness for `shrunk_short_lt_long` at length 7. -/
theorem shrunk_short_lt_long_witness :
    7 < 200 ∧ 3 ≤ 7 ∧ shrunk_short 7 < shrunk_long 7 :=
  ⟨by decide, by decide, shrunk_short_lt_long 7 (by decide) (by decide)⟩

/-- C9 counterexample: at series length 2 (which the claim includes, since
1 ≤ 2 < 200) the shrunk windows are short = long = 1, so short < long
fails (at length 1 both windows are 0). -/
theorem shrunk_short_lt_long_cex :
    (1 ≤ 2 ∧ 2 < 200) ∧ ¬ shrunk_short 2 < shrunk_long 2 := by decide

/-- C10: the verdict depends only on the Buy and Sell counts of the five
signals — two assignments with equal counts give the same verdict, and the
verdict is invariant under any permutation of the signal list. -/
theorem suggestion_counts_only :
    (∀ a b : Signals,
      (signalsList a).count Signal.Buy = (signalsList b).count Signal.Buy →
      (signalsList a).count Signal.Sell = (signalsList b).count Signal.Sell →
      calculate_final_suggestion (signalsList a) =
        calculate_final_suggestion (signalsList b)) ∧
    (∀ (a : Signals) (l : List Signal), (signalsList a).Perm l →
      calculate_final_suggestion l = calculate_final_suggestion (signalsList a)) := by
  constructor
  · intro a b h1 h2
    simp only [calculate_final_suggestion]
    rw [h1, h2]
  · intro a l h
    simp only [calculate_final_suggestion]
    rw [← h.count_eq Signal.Buy, ← h.count_eq Signal.Sell]

/-- Witness for `suggestion_counts_only`: two different arrangements with
one Buy and one Sell each get the same verdict. -/
theorem suggestion_counts_only_witness :
    (signalsList sgA).count Signal.Buy = (signalsList sgB).count Signal.Buy ∧
    (signalsList sgA).count Signal.Sell = (signalsList sgB).count Signal.Sell ∧
    calculate_final_suggestion (signalsList sgA) =
      calculate_final_suggestion (signalsList sgB) :=
  ⟨by decide, by decide, suggestion_counts_only.1 sgA sgB (by decide) (by decide)⟩
